import Mathlib

/-!
# A verification development for the `ydag` task-dependency engine

This file embeds the core of the `ydag` repository in Lean and proves
properties of the embedding.

* `State`, `TaskResult`, `TaskArg` and the `DagRun` functions mirror
  `src/ydag/task.py` (the current engine).
* The `It1` namespace mirrors the trigger evaluator of
  `src/ydag/deprecated/it1/trigger.py`.
* The `Conc` definitions give a small cooperative-scheduler model of two
  concurrent callers of `DagRun.run` on one task, used to analyse the
  run-once behaviour.

Python is unityped, so dynamic values are embedded as `Val`, Python
exceptions as `Err`, and the union type alias
`TaskArg = value | Task | TaskTransform` of the source as one inductive
type `TaskArg` whose three constructors play the role of the three
`isinstance` cases of the source.  `DagRun.run` is an `async` function
recursing over an object graph whose acyclicity is a documented
precondition of the engine; the embedding makes it total with an explicit
fuel argument (`none` = the recursion did not finish within the fuel,
which on an acyclic graph only happens when the fuel is too small).
The cooperative `asyncio` scheduling of the upstream fan-out is embedded
sequentially; with the pure work functions of the embedding the stored
results do not depend on the interleaving.  Interleaving itself is
studied separately with the `Conc` model.
-/

namespace Ydag

/-- The `State` enum of `src/ydag/task.py` (the identical enum is declared
again in `src/ydag/deprecated/it1/trigger.py`). -/
inductive State where
  | CREATED
  | WAITING
  | RUNNING
  | SKIPPED
  | SUCCEEDED
  | FAILED
  | UPSTREAM_FAILED
  | UPSTREAM_SKIPPED
deriving DecidableEq, Repr

/-- Spec-side definition: the terminal states named in the specification
(SKIPPED, SUCCEEDED, FAILED, UPSTREAM_FAILED, UPSTREAM_SKIPPED). -/
def State.isTerminal : State → Bool
  | .SKIPPED => true
  | .SUCCEEDED => true
  | .FAILED => true
  | .UPSTREAM_FAILED => true
  | .UPSTREAM_SKIPPED => true
  | _ => false

/-- Embedding of the dynamic Python values handled by the engine. -/
inductive Val where
  | none
  | bool (b : Bool)
  | int (n : Int)
  | str (s : String)
deriving DecidableEq, Repr

/-- Python truthiness of a value, as used by `if self._results[...].value:`
in the source.  `None`, `False`, `0` and the empty string are falsy. -/
def Val.truthy : Val → Bool
  | .none => false
  | .bool b => b
  | .int n => !(n == 0)
  | .str s => !(s == "")

/-- Embedding of the Python exceptions raised in the engine.  A raised
exception object is always truthy. -/
inductive Err where
  | valueError (msg : String)
  | typeError (msg : String)
  | nameError (msg : String)
  | keyError (key : String)
  | attributeError (msg : String)
deriving DecidableEq, Repr

/-- The `TaskResult` dataclass of `src/ydag/task.py`:
`state: State = State.CREATED`, `value: OutputType | None = None`,
`error: BaseException | None = None`.  A Python work function may return
`None`, which is indistinguishable from the absent default, so `value`
is a `Val` with `Val.none` standing for Python `None`. -/
structure TaskResult where
  state : State := State.CREATED
  value : Val := Val.none
  error : Option Err := Option.none
deriving DecidableEq, Repr

/-- Embedding of the `TaskArg` type alias of the source
(`OutputType | Task[OutputType] | TaskTransform[Any, OutputType]`).

* `value v` is a plain value;
* `task id wait_on skip check_skip_first inputs work` is a `Task`: the
  constructor arguments of `Task.__init__` plus the declared named inputs
  (in the source these are instance attributes matched by reflection to
  the parameter names of the abstract `run` method, embedded here as an
  association list in declaration order) and the abstract `run` method
  itself (the work function);
* `taskTransform task transformation alternative` is a `TaskTransform`
  dataclass value: the wrapped task-or-transform, the optional mapping
  function (`None` in the source when absent) and the optional fallback
  (`None` in the source when absent, embedded as `Val.none`). -/
inductive TaskArg : Type where
  | value (v : Val)
  | task (id : String) (wait_on : List TaskArg) (skip : Sum Bool TaskArg)
      (check_skip_first : Bool) (inputs : List (String × TaskArg))
      (work : List (String × Val) → Except Err Val)
  | taskTransform (task : TaskArg) (transformation : Option (Val → Except Err Val))
      (alternative : Val)

/-- `isinstance(x, Task)` of the source. -/
def TaskArg.isTask : TaskArg → Bool
  | .task _ _ _ _ _ _ => true
  | _ => false

/-- `isinstance(x, TaskTransform)` of the source. -/
def TaskArg.isTaskTransform : TaskArg → Bool
  | .taskTransform _ _ _ => true
  | _ => false

/-- The `id` property of `Task`.  On the other constructors the source
would raise `AttributeError`; every engine call site only reads `id` of
tasks, so the default `""` is never consulted there. -/
def TaskArg.id : TaskArg → String
  | .task i _ _ _ _ _ => i
  | _ => ""

/-- The `_wait_on` attribute of `Task` (defaulting like the unreachable
non-task case to the empty list). -/
def TaskArg.wait_onD : TaskArg → List TaskArg
  | .task _ w _ _ _ _ => w
  | _ => []

/-- The `_skip` attribute of `Task`: a static bool or a gate task. -/
def TaskArg.skipD : TaskArg → Sum Bool TaskArg
  | .task _ _ sk _ _ _ => sk
  | _ => Sum.inl false

/-- The `_check_skip_first` attribute of `Task`. -/
def TaskArg.check_skip_firstD : TaskArg → Bool
  | .task _ _ _ c _ _ => c
  | _ => false

/-- The declared named inputs of a `Task`; in the source
`get_run_kwargs_before_execution` recovers exactly these by reflection
over the parameter names of the abstract `run` method. -/
def TaskArg.inputsD : TaskArg → List (String × TaskArg)
  | .task _ _ _ _ ins _ => ins
  | _ => []

/-- The abstract `run` method of a `Task` (its work function).  On the
other constructors the source would raise `AttributeError`. -/
def TaskArg.workD : TaskArg → (List (String × Val) → Except Err Val)
  | .task _ _ _ _ _ w => w
  | _ => fun _ => Except.error (Err.attributeError "not a task")

/-- `Task.has_skip_task`: `isinstance(self._skip, Task)`. -/
def TaskArg.has_skip_task (t : TaskArg) : Bool :=
  t.skipD.isRight

/-- `Task.should_be_skipped`: returns the static bool; on a task-valued
gate the source raises `ValueError`.  The only engine call site is
guarded by `not task.has_skip_task`, so the `false` default of the
task-valued case is never consulted there. -/
def TaskArg.should_be_skippedD (t : TaskArg) : Bool :=
  match t.skipD with
  | Sum.inl b => b
  | Sum.inr _ => false

/-- `Task.needs_to_run_skip_task_first`:
`isinstance(self._skip, Task) and self._check_skip_first`. -/
def TaskArg.needs_to_run_skip_task_first (t : TaskArg) : Bool :=
  t.has_skip_task && t.check_skip_firstD

/-- `Task.skip_task`: the gate task; on a static gate the source raises
`ValueError`.  Every engine call site is guarded by `has_skip_task` or
`needs_to_run_skip_task_first`, so the default (the task itself) is
never consulted there. -/
def TaskArg.skip_taskD (t : TaskArg) : TaskArg :=
  match t.skipD with
  | Sum.inr g => g
  | Sum.inl _ => t

/-- `TaskTransform.upstream_task`: walk to the root `Task` of a transform
chain.  On a `Task` the walk is already at its root. -/
def TaskArg.upstream_task : TaskArg → TaskArg
  | .taskTransform inner _ _ => inner.upstream_task
  | t => t

/-- `TaskTransform.apply`: first apply the wrapped transform if the
wrapped object is itself a `TaskTransform`, then either return the
fallback (`alternative is not None and upstream_result.error`), or call
the mapping on the (possibly `None`) value.  Calling an absent
(`None`) mapping raises `TypeError`; an exception raised anywhere in the
chain propagates to the caller (`Except.error`). -/
def TaskArg.apply : TaskArg → TaskResult → Except Err TaskResult
  | .taskTransform inner tfm alt, upstream_result =>
    match (if inner.isTaskTransform then TaskArg.apply inner upstream_result
           else Except.ok upstream_result) with
    | Except.error e => Except.error e
    | Except.ok r =>
      if alt != Val.none && r.error.isSome then
        Except.ok { value := alt }
      else
        match tfm with
        | Option.none => Except.error (Err.typeError "NoneType object is not callable")
        | Option.some f =>
          match f r.value with
          | Except.ok v => Except.ok { value := v }
          | Except.error e => Except.error e
  | _, r => Except.ok r

/-- `Task.transform` and `TaskTransform.transform` of the source: wrap in
a new `TaskTransform` carrying the mapping and no fallback. -/
def TaskArg.transform (t : TaskArg) (func : Val → Except Err Val) : TaskArg :=
  TaskArg.taskTransform t (Option.some func) Val.none

/-- `Task.or_else` and `TaskTransform.or_else` of the source: wrap in a
new `TaskTransform` carrying the fallback and no mapping. -/
def TaskArg.or_else (t : TaskArg) (alternative : Val) : TaskArg :=
  TaskArg.taskTransform t Option.none alternative

/-- `Task.upstream_tasks`: the concatenation (a Python list) of the gate
task when task-valued, the wait-on list, the task-valued declared inputs,
and the root tasks of the transform-valued declared inputs, in the order
of the source expression. -/
def TaskArg.upstream_tasks (t : TaskArg) : List TaskArg :=
  (match t.skipD with
   | Sum.inr g => [g]
   | Sum.inl _ => [])
  ++ t.wait_onD
  ++ ((t.inputsD.map Prod.snd).filter fun a => a.isTask)
  ++ (((t.inputsD.map Prod.snd).filter fun a => a.isTaskTransform).map TaskArg.upstream_task)

/-- The result store `DagRun._results`, a dict keyed by task identity;
`Task.__eq__`/`__hash__` compare by `id`, so the store is keyed by the id
string.  It is embedded as a newest-first association list: an assignment
prepends an entry, so every entry ever written stays in the list and
lookups see the newest entry for an id. -/
abbrev Store := List (String × TaskResult)

/-- Dict assignment `self._results[task] = r`. -/
def Store.insert (s : Store) (k : String) (r : TaskResult) : Store :=
  (k, r) :: s

/-- Dict lookup: `some` when the id is present, `none` for the dict
`KeyError`. -/
def Store.get : Store → String → Option TaskResult
  | [], _ => Option.none
  | (k, r) :: s, key => if k == key then Option.some r else Store.get s key

/-- `self._results[task]` at the guarded read sites of `DagRun.run`,
where the engine has already stored an entry for the id; the `CREATED`
default of the absent case is never consulted at those sites. -/
def resD (s : Store) (k : String) : TaskResult :=
  (Store.get s k).getD {}

/-- `DagRun.get_result`: dict indexing, raising `KeyError` (`none`) for a
task id with no stored result. -/
def DagRun.get_result (s : Store) (task_id : String) : Option TaskResult :=
  Store.get s task_id

/-- `DagRun._gather_value`: a task argument resolves to its stored
value, a transform argument resolves by applying the transform chain to
the stored result of its root task, a plain value passes through.  The
`get_result` dict access can raise `KeyError`, which (like an exception
raised inside the transform chain) propagates to the caller. -/
def DagRun.gather_value (store : Store) : TaskArg → Except Err Val
  | .task i w sk c ins wk =>
    match Store.get store (TaskArg.task i w sk c ins wk).id with
    | Option.some r => Except.ok r.value
    | Option.none => Except.error (Err.keyError i)
  | .taskTransform inner f a =>
    match Store.get store (TaskArg.taskTransform inner f a).upstream_task.id with
    | Option.some r =>
      match (TaskArg.taskTransform inner f a).apply r with
      | Except.ok tr => Except.ok tr.value
      | Except.error e => Except.error e
    | Option.none => Except.error (Err.keyError (TaskArg.taskTransform inner f a).upstream_task.id)
  | .value v => Except.ok v

/-- The states of the upstream-failure check of `DagRun.run`
(`[State.FAILED, State.UPSTREAM_FAILED]`). -/
def failedStates : List State := [State.FAILED, State.UPSTREAM_FAILED]

/-- The states of the upstream-skip check of `DagRun.run`
(`[State.SKIPPED, State.UPSTREAM_SKIPPED]`). -/
def skippedStates : List State := [State.SKIPPED, State.UPSTREAM_SKIPPED]

/-- The part of `DagRun.run` after the upstream fan-out has completed
(source lines 123-162).  In order:

1. gather the run kwargs; on an exception store `FAILED` with the caught
   error — the source has no `return` in this `except` branch, so
   execution falls through;
2. if any upstream task's stored state is `FAILED`/`UPSTREAM_FAILED`,
   store `UPSTREAM_FAILED` and return;
3. else if any is `SKIPPED`/`UPSTREAM_SKIPPED`, store `UPSTREAM_SKIPPED`
   and return;
4. else if the task has a gate task that was not required to run first
   and its stored value is truthy, store `SKIPPED` and return;
5. else invoke the work function with the gathered kwargs and store
   `SUCCEEDED`/`FAILED`.  When step 1 failed, the kwargs variable is
   unbound in the source, so the invocation raises `NameError`, which the
   surrounding `except` stores as `FAILED`.

`DagRun.gatherKwargs` is step 1's dict comprehension
`{kw: self._gather_value(arg) for kw, arg in run_kwargs_before.items()}`:
evaluated in declaration order, the first exception aborting it. -/
def DagRun.gatherValues (store : Store) :
    List (String × TaskArg) → Except Err (List (String × Val))
  | [] => Except.ok []
  | p :: ps =>
    match DagRun.gather_value store p.2 with
    | Except.error e => Except.error e
    | Except.ok v =>
      match DagRun.gatherValues store ps with
      | Except.error e => Except.error e
      | Except.ok rest => Except.ok ((p.1, v) :: rest)

def DagRun.gatherKwargs (store : Store) (task : TaskArg) : Except Err (List (String × Val)) :=
  DagRun.gatherValues store task.inputsD

/-- The store after step 1: unchanged when gathering succeeded, with a
`FAILED` entry holding the caught error when it raised (the source falls
through to the upstream checks either way). -/
def DagRun.storeAfterGather (store : Store) (task : TaskArg) : Store :=
  match DagRun.gatherKwargs store task with
  | Except.error e =>
    Store.insert store task.id { state := State.FAILED, error := Option.some e }
  | Except.ok _ => store

/-- Steps 2-5 above, over the store `store1` left by step 1 and step 1's
outcome `gathered`. -/
def DagRun.finishWith (store1 : Store) (gathered : Except Err (List (String × Val)))
    (task : TaskArg) : Store :=
  if task.upstream_tasks.any (fun u => failedStates.contains (resD store1 u.id).state) then
    Store.insert store1 task.id { state := State.UPSTREAM_FAILED }
  else if task.upstream_tasks.any (fun u => skippedStates.contains (resD store1 u.id).state) then
    Store.insert store1 task.id { state := State.UPSTREAM_SKIPPED }
  else if !task.needs_to_run_skip_task_first && task.has_skip_task
          && (resD store1 task.skip_taskD.id).value.truthy then
    Store.insert store1 task.id { state := State.SKIPPED }
  else
    match gathered with
    | Except.error _ =>
      Store.insert store1 task.id
        { state := State.FAILED, error := Option.some (Err.nameError "run_kwargs_after_task_run") }
    | Except.ok kwargs =>
      match task.workD kwargs with
      | Except.ok v => Store.insert store1 task.id { state := State.SUCCEEDED, value := v }
      | Except.error e => Store.insert store1 task.id { state := State.FAILED, error := Option.some e }

def DagRun.finish (store : Store) (task : TaskArg) : Store :=
  DagRun.finishWith (DagRun.storeAfterGather store task) (DagRun.gatherKwargs store task) task

/-- Run a list of tasks in sequence with the given runner, threading the
store (the sequential embedding of the `asyncio.gather` fan-out). -/
def DagRun.runList (f : Store → TaskArg → Option Store) : Store → List TaskArg → Option Store
  | store, [] => Option.some store
  | store, t :: ts =>
    match f store t with
    | Option.none => Option.none
    | Option.some s => DagRun.runList f s ts

/-- One unfolding of `DagRun.run` (source lines 86-162), parameterised by
the runner `rec` used for the recursive calls.  In order:

1. if the task id already has a stored result, return at once;
2. the source then checks `task in self._running_tasks` — but nothing in
   the source ever writes to `_running_tasks`, so that membership test
   can never succeed and the branch is dead code (see the `Conc` model);
3. if the gate is a static bool and truthy, store `SKIPPED` and return;
4. if the gate task must run first, run it; if its stored value is
   truthy, store `SKIPPED` and return;
5. run all upstream tasks and hand over to `DagRun.finish`. -/
def DagRun.runStep (rec : Store → TaskArg → Option Store) (store : Store) (task : TaskArg) :
    Option Store :=
  if (Store.get store task.id).isSome then Option.some store
  else if !task.has_skip_task && task.should_be_skippedD then
    Option.some (Store.insert store task.id { state := State.SKIPPED })
  else
    match (if task.needs_to_run_skip_task_first then rec store task.skip_taskD
           else Option.some store) with
    | Option.none => Option.none
    | Option.some store1 =>
      if task.needs_to_run_skip_task_first && (resD store1 task.skip_taskD.id).value.truthy then
        Option.some (Store.insert store1 task.id { state := State.SKIPPED })
      else
        match DagRun.runList rec store1 task.upstream_tasks with
        | Option.none => Option.none
        | Option.some store2 => Option.some (DagRun.finish store2 task)

/-- `DagRun.run` with explicit fuel bounding the recursion depth
(`none` = the fuel ran out; on the acyclic graphs the engine requires,
any fuel at least the graph depth gives `some`). -/
def DagRun.run : Nat → Store → TaskArg → Option Store
  | 0, _, _ => Option.none
  | fuel + 1, store, task => DagRun.runStep (DagRun.run fuel) store task

/-! ## The trigger evaluator of `src/ydag/deprecated/it1/trigger.py` -/

namespace It1

/-- `NOT_DONE_STATES` of the trigger module. -/
def NOT_DONE_STATES : List State := [State.CREATED, State.WAITING, State.RUNNING]

/-- `DONE_STATES` of the trigger module. -/
def DONE_STATES : List State :=
  [State.SKIPPED, State.UPSTREAM_SKIPPED, State.SUCCEEDED, State.FAILED, State.UPSTREAM_FAILED]

/-- `SKIPPED_STATES` of the trigger module. -/
def SKIPPED_STATES : List State := [State.SKIPPED, State.UPSTREAM_SKIPPED]

/-- `FAILED_STATES` of the trigger module. -/
def FAILED_STATES : List State := [State.FAILED, State.UPSTREAM_FAILED]

/-- The `Trigger` enum. -/
inductive Trigger where
  | ALL_SUCCESS
  | ALL_FAILED
  | ALL_DONE
  | ONE_SUCCESS
  | ONE_FAILED
  | NONE_FAILED
  | NONE_SKIPPED
deriving DecidableEq, Repr

/-- `Trigger.next_state`.  The source is a sequence of
`if self == Trigger.X:` blocks each of whose guarded inner `if`s
`return`s, followed by a final `return State.WAITING`; since the rule
equals exactly one variant, this is the same as a `match` whose
non-returning branches fall through to `WAITING`.  Python's
`set(predecessor_states) == {State.SUCCEEDED}` requires the list to be
non-empty with every element `SUCCEEDED`; `issubset` is the pointwise
`all` (true on the empty list). -/
def Trigger.next_state (t : Trigger) (predecessor_states : List State) : State :=
  if predecessor_states.any (fun s => NOT_DONE_STATES.contains s) then State.WAITING
  else
    match t with
    | .ALL_SUCCESS =>
      if !predecessor_states.isEmpty && predecessor_states.all (fun s => s == State.SUCCEEDED) then
        State.RUNNING
      else if predecessor_states.any (fun s => SKIPPED_STATES.contains s) then
        State.UPSTREAM_SKIPPED
      else if predecessor_states.any (fun s => FAILED_STATES.contains s) then
        State.UPSTREAM_FAILED
      else State.WAITING
    | .ALL_FAILED =>
      if predecessor_states.all (fun s => FAILED_STATES.contains s) then
        State.RUNNING
      else if predecessor_states.any (fun s => SKIPPED_STATES.contains s) then
        State.UPSTREAM_SKIPPED
      else if predecessor_states.any (fun s => FAILED_STATES.contains s) then
        State.UPSTREAM_FAILED
      else State.WAITING
    | .ALL_DONE =>
      if predecessor_states.all (fun s => DONE_STATES.contains s) then State.RUNNING
      else State.FAILED
    | .ONE_SUCCESS =>
      if predecessor_states.any (fun s => s == State.SUCCEEDED) then State.RUNNING
      else if !predecessor_states.any (fun s => FAILED_STATES.contains s) then
        State.UPSTREAM_FAILED
      else State.FAILED
    | .ONE_FAILED =>
      if !predecessor_states.any (fun s => FAILED_STATES.contains s) then State.RUNNING
      else State.FAILED
    | .NONE_FAILED =>
      if predecessor_states.any (fun s => FAILED_STATES.contains s) then State.FAILED
      else State.RUNNING
    | .NONE_SKIPPED =>
      if predecessor_states.any (fun s => SKIPPED_STATES.contains s) then State.FAILED
      else State.RUNNING

end It1

/-! ## A cooperative-scheduler model of two concurrent callers of `DagRun.run`

`DagRun.run` is an `async` coroutine; two callers may request the same
task concurrently (the repository's own
`tests/test_task.py::test_task_already_started` does exactly that).  The
`Conc` definitions model the two callers for one task with no wait-on
tasks, a static `skip=False` gate and no declared inputs, whose work
function suspends exactly once (like `WaitTask`, whose work awaits
`asyncio.sleep`) and bumps a side-effect counter.

Atomicity follows the `asyncio` suspension points of the source: from
entering `DagRun.run` the caller executes the already-completed check
(line 93), the already-started check on `_running_tasks` (line 98), the
static-skip check, the (empty) upstream fan-out — `await` of an
already-completed gathering future, which does not yield — and the kwarg
gathering without ever yielding, then enters the work function and
suspends at its `await`; on resumption it finishes the work function and
stores the `SUCCEEDED` result, again without yielding.  Crucially, no
statement of the source ever writes to `self._running_tasks`, so no step
of the model adds to the `running` field. -/

/-- The shared mutable state of one `DagRun` plus the side-effect counter
of the work function: `results` is `_results`, `running` is the key set
of `_running_tasks` (never written by the source), `counter` counts work
function executions. -/
structure ConcState where
  results : Store
  running : List String
  counter : Nat
deriving DecidableEq, Repr

/-- The program counter of one caller of `DagRun.run`:
`entry` — about to execute the checks at the top of `run`;
`inWork` — suspended at the `await` inside the work function;
`finished` — `run` returned. -/
inductive ReqPC where
  | entry
  | inWork
  | finished
deriving DecidableEq, Repr

/-- One atomic step of one caller of `DagRun.run` on the task `t_id`
described above.  At `entry`: return if a result is stored; await (and
so effectively return, the outstanding coroutine being the other
caller's) if the id is in `running` — which the source can never make
true since it never populates `_running_tasks`; otherwise fall through
the skip checks and the empty fan-out into the work function and suspend
at its `await`.  At `inWork`: finish the work function (bumping the
counter), store the `SUCCEEDED` result and return. -/
def reqStep (t_id : String) (pc : ReqPC) (st : ConcState) : ReqPC × ConcState :=
  match pc with
  | .entry =>
    if (Store.get st.results t_id).isSome then (.finished, st)
    else if st.running.contains t_id then (.finished, st)
    else (.inWork, st)
  | .inWork =>
    (.finished,
      { st with
        counter := st.counter + 1,
        results := Store.insert st.results t_id { state := State.SUCCEEDED } })
  | .finished => (.finished, st)

/-- Run a schedule over two callers: `true` steps the first caller,
`false` the second. -/
def runSchedule (t_id : String) : List Bool → ReqPC × ReqPC × ConcState → ReqPC × ReqPC × ConcState
  | [], s => s
  | b :: rest, (pc1, pc2, st) =>
    if b then
      match reqStep t_id pc1 st with
      | (pc1x, stx) => runSchedule t_id rest (pc1x, pc2, stx)
    else
      match reqStep t_id pc2 st with
      | (pc2x, stx) => runSchedule t_id rest (pc1, pc2x, stx)

/-! ## Spec-side definitions

These definitions follow the wording of the specification (not the
source); they are used to state the claims and compare against the
source-derived definitions above. -/

/-- Run a task and read the stored result of the given id from the final
store: `run.run(task)` followed by `run.get_result(...)`. -/
def DagRun.runGet (fuel : Nat) (store : Store) (task : TaskArg) (tid : String) :
    Option TaskResult :=
  match DagRun.run fuel store task with
  | Option.some s => DagRun.get_result s tid
  | Option.none => Option.none

/-- Spec-side: membership in the upstream set of §3 of the spec — the
union of (a) tasks bound to declared named inputs, (b) wait-on tasks,
(c) the skip-gate task when task-valued, (d) the root task of each
transform bound to a named input. -/
def specUpstreamMember (t u : TaskArg) : Prop :=
  (∃ p ∈ t.inputsD, p.2 = u ∧ u.isTask = true) ∨
  u ∈ t.wait_onD ∨
  t.skipD = Sum.inr u ∨
  (∃ p ∈ t.inputsD, p.2.isTaskTransform = true ∧ p.2.upstream_task = u)

/-- Spec-side: "exactly one of value/error is populated" — the value is
not `None`, or the error is present, but not both and not neither. -/
def exactlyOnePopulated (r : TaskResult) : Prop :=
  (r.value ≠ Val.none ∧ r.error = Option.none) ∨
  (r.value = Val.none ∧ r.error.isSome = true)

/-- The field discipline actually maintained by every write of
`DagRun.run`: the state is terminal; `FAILED` results carry an error and
no value; `SUCCEEDED` results carry no error (their value is the work
function's return, which may itself be `None`); `SKIPPED`,
`UPSTREAM_FAILED` and `UPSTREAM_SKIPPED` results carry neither. -/
def writtenResultShape (r : TaskResult) : Prop :=
  r.state.isTerminal = true ∧
  (r.state = State.FAILED → r.error.isSome = true ∧ r.value = Val.none) ∧
  (r.state = State.SUCCEEDED → r.error = Option.none) ∧
  ((r.state = State.SKIPPED ∨ r.state = State.UPSTREAM_FAILED ∨
      r.state = State.UPSTREAM_SKIPPED) →
    r.value = Val.none ∧ r.error = Option.none)

/-! ## Concrete tasks for witnesses and counterexamples

These mirror the task classes of `tests/test_task.py`. -/

/-- A work function returning its input `x` unchanged (observing it). -/
def echoWork : List (String × Val) → Except Err Val :=
  fun kwargs => Except.ok ((kwargs.lookup "x").getD Val.none)

/-- A partial map on values adding one to an int. -/
def intSucc : Val → Except Err Val
  | Val.int n => Except.ok (Val.int (n + 1))
  | _ => Except.error (Err.typeError "unsupported operand")

/-- `ReturnOneTask("one")`. -/
def exOne : TaskArg :=
  TaskArg.task "one" [] (Sum.inl false) false [] (fun _ => Except.ok (Val.int 1))

/-- `ReturnTrueTask("true")`. -/
def exTrue : TaskArg :=
  TaskArg.task "true" [] (Sum.inl false) false [] (fun _ => Except.ok (Val.bool true))

/-- `FailTask("fail")`. -/
def exFail : TaskArg :=
  TaskArg.task "fail" [] (Sum.inl false) false []
    (fun _ => Except.error (Err.valueError "This task always fails"))

/-- `ReturnOneTask("s", skip=True)`: a task with a static truthy gate. -/
def exSkipStatic : TaskArg :=
  TaskArg.task "s" [] (Sum.inl true) false [] (fun _ => Except.ok (Val.int 1))

/-- A task with a static truthy gate AND an input bound to the failing
task: its upstream set contains `exFail`. -/
def exSkipWithFailedInput : TaskArg :=
  TaskArg.task "gated" [] (Sum.inl true) false [("x", exFail)] echoWork

/-- A consumer with one failed and one skipped upstream input. -/
def exMixedConsumer : TaskArg :=
  TaskArg.task "c" [] (Sum.inl false) false [("x", exFail), ("y", exSkipStatic)] echoWork

/-- `ReturnOneTask("A")`: a task shared between a gate and a gated task. -/
def exA : TaskArg :=
  TaskArg.task "A" [] (Sum.inl false) false [] (fun _ => Except.ok (Val.int 1))

/-- A truthy gate task that itself consumes `exA`. -/
def exGateSharing : TaskArg :=
  TaskArg.task "G" [] (Sum.inl false) false [("a", exA)] (fun _ => Except.ok (Val.bool true))

/-- A gated task with `check_skip_first=True` whose gate shares the
upstream task `exA` with its own declared input. -/
def exGatedShared : TaskArg :=
  TaskArg.task "gated" [] (Sum.inr exGateSharing) true [("x", exA)] echoWork

/-- The `test_skip_first` task: `AddOneTask("two", x=one, skip=true_task,
check_skip_first=True)` (with an echoing work function). -/
def exGatedFresh : TaskArg :=
  TaskArg.task "two" [] (Sum.inr exTrue) true [("x", exOne)] echoWork

/-- A consumer of `fail_task.or_else(5)`. -/
def exOrElseFailRoot : TaskArg :=
  TaskArg.task "c" [] (Sum.inl false) false [("x", TaskArg.or_else exFail (Val.int 5))] echoWork

/-- A consumer of `one.or_else(5)`. -/
def exOrElseOkRoot : TaskArg :=
  TaskArg.task "c2" [] (Sum.inl false) false [("x", TaskArg.or_else exOne (Val.int 5))] echoWork

/-- A task naming `exOne` both in `wait_on` and as the input `x`. -/
def exDup : TaskArg :=
  TaskArg.task "two" [exOne] (Sum.inl false) false [("x", exOne)] echoWork

/-- The result `DagRun.run` stores for `exFail`. -/
def exFailResult : TaskResult :=
  { state := State.FAILED, error := Option.some (Err.valueError "This task always fails") }

/-! ## Helper lemmas about the store and the executor -/

theorem Store.get_insert_self (s : Store) (k : String) (r : TaskResult) :
    Store.get (Store.insert s k r) k = Option.some r := by
  simp [Store.insert, Store.get]

theorem Store.get_insert_ne (s : Store) (k k' : String) (r : TaskResult) (h : ¬ k = k') :
    Store.get (Store.insert s k r) k' = Store.get s k' := by
  simp [Store.insert, Store.get, h]

theorem resD_insert_self (s : Store) (k : String) (r : TaskResult) :
    resD (Store.insert s k r) k = r := by
  simp [resD, Store.get_insert_self]

theorem resD_insert_ne (s : Store) (k k' : String) (r : TaskResult) (h : ¬ k = k') :
    resD (Store.insert s k r) k' = resD s k' := by
  simp [resD, Store.get_insert_ne _ _ _ _ h]

theorem shape_skipped : writtenResultShape { state := State.SKIPPED } := by
  refine ⟨rfl, ?_, ?_, ?_⟩ <;> simp

theorem shape_upstream_failed : writtenResultShape { state := State.UPSTREAM_FAILED } := by
  refine ⟨rfl, ?_, ?_, ?_⟩ <;> simp

theorem shape_upstream_skipped : writtenResultShape { state := State.UPSTREAM_SKIPPED } := by
  refine ⟨rfl, ?_, ?_, ?_⟩ <;> simp

theorem shape_succeeded (v : Val) : writtenResultShape { state := State.SUCCEEDED, value := v } := by
  refine ⟨rfl, ?_, ?_, ?_⟩ <;> simp

theorem shape_failed (e : Err) :
    writtenResultShape { state := State.FAILED, error := Option.some e } := by
  refine ⟨rfl, ?_, ?_, ?_⟩ <;> simp

theorem storeAfterGather_writes (store : Store) (t : TaskArg) :
    ∀ e ∈ DagRun.storeAfterGather store t, e ∈ store ∨ writtenResultShape e.2 := by
  intro e he
  unfold DagRun.storeAfterGather at he
  cases hg : DagRun.gatherKwargs store t with
  | error err =>
    rw [hg] at he
    rcases List.mem_cons.mp he with h | h
    · right; rw [h]; exact shape_failed err
    · left; exact h
  | ok kw =>
    rw [hg] at he
    left; exact he

theorem finishWith_writes (store1 : Store) (g : Except Err (List (String × Val))) (t : TaskArg) :
    ∀ e ∈ DagRun.finishWith store1 g t, e ∈ store1 ∨ writtenResultShape e.2 := by
  intro e he
  unfold DagRun.finishWith at he
  split at he
  · rcases List.mem_cons.mp he with h | h
    · right; rw [h]; exact shape_upstream_failed
    · left; exact h
  · split at he
    · rcases List.mem_cons.mp he with h | h
      · right; rw [h]; exact shape_upstream_skipped
      · left; exact h
    · split at he
      · rcases List.mem_cons.mp he with h | h
        · right; rw [h]; exact shape_skipped
        · left; exact h
      · split at he
        · rcases List.mem_cons.mp he with h | h
          · right; rw [h]; exact shape_failed _
          · left; exact h
        · split at he
          · rcases List.mem_cons.mp he with h | h
            · right; rw [h]; exact shape_succeeded _
            · left; exact h
          · rcases List.mem_cons.mp he with h | h
            · right; rw [h]; exact shape_failed _
            · left; exact h

theorem finish_writes (store : Store) (t : TaskArg) :
    ∀ e ∈ DagRun.finish store t, e ∈ store ∨ writtenResultShape e.2 := by
  intro e he
  unfold DagRun.finish at he
  rcases finishWith_writes _ _ _ e he with h | h
  · exact storeAfterGather_writes store t e h
  · right; exact h

theorem runList_writes (f : Store → TaskArg → Option Store)
    (hf : ∀ st u s2, f st u = Option.some s2 → ∀ e ∈ s2, e ∈ st ∨ writtenResultShape e.2) :
    ∀ ts st s2, DagRun.runList f st ts = Option.some s2 →
      ∀ e ∈ s2, e ∈ st ∨ writtenResultShape e.2 := by
  intro ts
  induction ts with
  | nil =>
    intro st s2 h e he
    unfold DagRun.runList at h
    cases h
    left; exact he
  | cons t ts ih =>
    intro st s2 h e he
    unfold DagRun.runList at h
    cases hft : f st t with
    | none => rw [hft] at h; cases h
    | some s1 =>
      rw [hft] at h
      rcases ih s1 s2 h e he with h1 | h1
      · exact hf st t s1 hft e h1
      · right; exact h1

theorem runStep_writes (rec : Store → TaskArg → Option Store)
    (hrec : ∀ st u s2, rec st u = Option.some s2 → ∀ e ∈ s2, e ∈ st ∨ writtenResultShape e.2)
    (store : Store) (t : TaskArg) (s2 : Store)
    (h : DagRun.runStep rec store t = Option.some s2) :
    ∀ e ∈ s2, e ∈ store ∨ writtenResultShape e.2 := by
  unfold DagRun.runStep at h
  split at h
  · cases h; intro e he; left; exact he
  · split at h
    · cases h
      intro e he
      rcases List.mem_cons.mp he with h1 | h1
      · right; rw [h1]; exact shape_skipped
      · left; exact h1
    · split at h
      · cases h
      · rename_i store1 hg
        have hStore1 : ∀ e ∈ store1, e ∈ store ∨ writtenResultShape e.2 := by
          intro e he
          by_cases hn : t.needs_to_run_skip_task_first = true
          · rw [if_pos hn] at hg
            exact hrec store t.skip_taskD store1 hg e he
          · rw [if_neg hn] at hg
            cases hg
            left; exact he
        split at h
        · cases h
          intro e he
          rcases List.mem_cons.mp he with h1 | h1
          · right; rw [h1]; exact shape_skipped
          · exact hStore1 e h1
        · split at h
          · cases h
          · rename_i store2 hl
            cases h
            intro e he
            rcases finish_writes store2 t e he with h1 | h1
            · rcases runList_writes rec hrec t.upstream_tasks store1 store2 hl e h1 with h2 | h2
              · exact hStore1 e h2
              · right; exact h2
            · right; exact h1

theorem run_writes :
    ∀ fuel store t s2, DagRun.run fuel store t = Option.some s2 →
      ∀ e ∈ s2, e ∈ store ∨ writtenResultShape e.2 := by
  intro fuel
  induction fuel with
  | zero => intro store t s2 h; cases h
  | succ n ih =>
    intro store t s2 h
    exact runStep_writes (DagRun.run n) ih store t s2 h

theorem finishWith_get_self (store1 : Store) (g : Except Err (List (String × Val)))
    (t : TaskArg) :
    (Store.get (DagRun.finishWith store1 g t) t.id).isSome = true := by
  unfold DagRun.finishWith
  split
  · simp [Store.get_insert_self]
  · split
    · simp [Store.get_insert_self]
    · split
      · simp [Store.get_insert_self]
      · split
        · simp [Store.get_insert_self]
        · split <;> simp [Store.get_insert_self]

theorem finish_get_self (store : Store) (t : TaskArg) :
    (Store.get (DagRun.finish store t) t.id).isSome = true := by
  unfold DagRun.finish
  exact finishWith_get_self _ _ t

theorem runStep_get_self (rec : Store → TaskArg → Option Store)
    (store : Store) (t : TaskArg) (s2 : Store)
    (h : DagRun.runStep rec store t = Option.some s2) :
    (Store.get s2 t.id).isSome = true := by
  unfold DagRun.runStep at h
  split at h
  · cases h; assumption
  · split at h
    · cases h; simp [Store.get_insert_self]
    · split at h
      · cases h
      · rename_i store1 hg
        split at h
        · cases h; simp [Store.get_insert_self]
        · split at h
          · cases h
          · rename_i store2 hl
            cases h
            exact finish_get_self store2 t

theorem run_get_self (fuel : Nat) (store : Store) (t : TaskArg) (s2 : Store)
    (h : DagRun.run fuel store t = Option.some s2) :
    (Store.get s2 t.id).isSome = true := by
  cases fuel with
  | zero => cases h
  | succ n => exact runStep_get_self (DagRun.run n) store t s2 h

theorem notDone_contains_eq (s : State) :
    It1.NOT_DONE_STATES.contains s = !s.isTerminal := by
  cases s <;> rfl

theorem done_contains_eq (s : State) :
    It1.DONE_STATES.contains s = s.isTerminal := by
  cases s <;> rfl

/-! ## The claims -/

/-- C6: for every sequence of predecessor states that are all terminal
and contain at least one of SKIPPED/UPSTREAM_SKIPPED and at least one of
FAILED/UPSTREAM_FAILED, `Trigger.next_state` under both ALL_SUCCESS and
ALL_FAILED returns UPSTREAM_SKIPPED, not UPSTREAM_FAILED: the skip
propagation check comes before the failure propagation check. -/
theorem C6_skip_precedes_failure (states : List State)
    (hTerm : ∀ s ∈ states, s.isTerminal = true)
    (hSkip : ∃ s ∈ states, s = State.SKIPPED ∨ s = State.UPSTREAM_SKIPPED)
    (_hFail : ∃ s ∈ states, s = State.FAILED ∨ s = State.UPSTREAM_FAILED) :
    It1.Trigger.next_state It1.Trigger.ALL_SUCCESS states = State.UPSTREAM_SKIPPED ∧
    It1.Trigger.next_state It1.Trigger.ALL_FAILED states = State.UPSTREAM_SKIPPED := by
  obtain ⟨sk, hskMem, hskEq⟩ := hSkip
  have hNotDone : states.any (fun s => It1.NOT_DONE_STATES.contains s) = false := by
    simp only [List.any_eq_false]
    intro x hx
    rw [notDone_contains_eq, hTerm x hx]
    simp
  have hAnySkip : states.any (fun s => It1.SKIPPED_STATES.contains s) = true := by
    apply List.any_eq_true.mpr
    refine ⟨sk, hskMem, ?_⟩
    rcases hskEq with h | h <;> rw [h] <;> rfl
  have hNotAllSucc : (states.all fun s => s == State.SUCCEEDED) = false := by
    apply Bool.eq_false_iff.mpr
    intro hall
    have := List.all_eq_true.mp hall sk hskMem
    rcases hskEq with h | h <;> rw [h] at this <;> cases this
  have hNotAllFail : (states.all fun s => It1.FAILED_STATES.contains s) = false := by
    apply Bool.eq_false_iff.mpr
    intro hall
    have := List.all_eq_true.mp hall sk hskMem
    rcases hskEq with h | h <;> rw [h] at this <;> cases this
  constructor
  · unfold It1.Trigger.next_state
    rw [hNotDone, hNotAllSucc, hAnySkip]
    simp
  · unfold It1.Trigger.next_state
    rw [hNotDone, hNotAllFail, hAnySkip]
    simp

/-- C6 witness: the concrete predecessor states `[SKIPPED, FAILED]`. -/
theorem C6_skip_precedes_failure_witness :
    (∀ s ∈ [State.SKIPPED, State.FAILED], s.isTerminal = true) ∧
    (∃ s ∈ [State.SKIPPED, State.FAILED],
        s = State.SKIPPED ∨ s = State.UPSTREAM_SKIPPED) ∧
    (∃ s ∈ [State.SKIPPED, State.FAILED],
        s = State.FAILED ∨ s = State.UPSTREAM_FAILED) ∧
    (It1.Trigger.next_state It1.Trigger.ALL_SUCCESS [State.SKIPPED, State.FAILED] =
        State.UPSTREAM_SKIPPED ∧
     It1.Trigger.next_state It1.Trigger.ALL_FAILED [State.SKIPPED, State.FAILED] =
        State.UPSTREAM_SKIPPED) :=
  ⟨by decide, by decide, by decide,
   C6_skip_precedes_failure [State.SKIPPED, State.FAILED] (by decide) (by decide) (by decide)⟩

/-- C7 counterexample: with a non-terminal predecessor, `next_state`
under ALL_DONE returns WAITING, not FAILED as the claim states. -/
theorem C7_all_done_nonterminal_waiting :
    It1.Trigger.next_state It1.Trigger.ALL_DONE [State.CREATED] = State.WAITING ∧
    ¬ State.WAITING = State.FAILED := by
  exact ⟨rfl, by decide⟩

/-- C7 amended: `next_state` under ALL_DONE returns RUNNING iff every
predecessor state is terminal, and WAITING otherwise; the FAILED
fallback of the source is unreachable, because any predecessor set that
is not all-terminal is caught by the global WAITING guard and an
all-terminal set always passes the DONE_STATES subset test. -/
theorem C7_all_done_amended (states : List State) :
    It1.Trigger.next_state It1.Trigger.ALL_DONE states =
      (if states.all (fun s => s.isTerminal) then State.RUNNING else State.WAITING) := by
  by_cases hall : (states.all fun s => s.isTerminal) = true
  · have hNotDone : states.any (fun s => It1.NOT_DONE_STATES.contains s) = false := by
      simp only [List.any_eq_false]
      intro x hx
      rw [notDone_contains_eq, List.all_eq_true.mp hall x hx]
      simp
    have hDone : (states.all fun s => It1.DONE_STATES.contains s) = true := by
      apply List.all_eq_true.mpr
      intro x hx
      rw [done_contains_eq]
      exact List.all_eq_true.mp hall x hx
    unfold It1.Trigger.next_state
    rw [hNotDone, hDone, if_pos hall]
    simp
  · have hall2 : (states.all fun s => s.isTerminal) = false := Bool.eq_false_iff.mpr hall
    have hEx : ∃ x ∈ states, x.isTerminal = false := by
      rcases List.all_eq_true.not.mp (Bool.eq_false_iff.mp hall2) with h
      push_neg at h
      rcases h with ⟨x, hx, hnx⟩
      exact ⟨x, hx, Bool.eq_false_iff.mpr hnx⟩
    have hNotDone : states.any (fun s => It1.NOT_DONE_STATES.contains s) = true := by
      apply List.any_eq_true.mpr
      rcases hEx with ⟨x, hx, hnx⟩
      refine ⟨x, hx, ?_⟩
      rw [notDone_contains_eq, hnx]
      rfl
    unfold It1.Trigger.next_state
    rw [hNotDone, hall2]
    simp

/-- C2: the source's `DagRun.__init__` creates `_running_tasks` and
`DagRun.run` tests membership in it, but no statement of the source ever
adds to it.  Under the schedule where a second caller enters
`DagRun.run` while the first is suspended inside the work function
(the schedule of `test_task_already_started`), the second caller finds
neither a stored result nor an in-flight entry and executes the work
function again: the side-effect counter ends at 2 and the in-flight map
is still empty. -/
theorem C2_work_function_runs_twice :
    runSchedule "wait" [true, false, true, false]
        (ReqPC.entry, ReqPC.entry, ⟨[], [], 0⟩) =
      (ReqPC.finished, ReqPC.finished,
        ⟨[("wait", { state := State.SUCCEEDED }), ("wait", { state := State.SUCCEEDED })],
         [], 2⟩) := by
  rfl

/-- C4: evaluation of `or_else` through `DagRun.run`.  When the root
task failed, the consumer of `root.or_else(5)` is stored
`UPSTREAM_FAILED` by the upstream-failure check before its work function
could observe the fallback; when the root task succeeded, the
`TaskTransform` made by `or_else` carries `transformation=None`, so
applying it raises `TypeError`, the kwarg gathering fails, and the
consumer is stored `FAILED` (with the `NameError` of the source's
unbound kwargs variable) instead of observing the value.  In neither
case does the consumer's work function observe any value. -/
theorem C4_or_else_never_observed :
    DagRun.runGet 2 [] exOrElseFailRoot "c" =
      Option.some { state := State.UPSTREAM_FAILED } ∧
    DagRun.runGet 2 [] exOrElseOkRoot "c2" =
      Option.some { state := State.FAILED,
                    error := Option.some (Err.nameError "run_kwargs_after_task_run") } := by
  exact ⟨rfl, rfl⟩

/-- C1 counterexample: `exSkipWithFailedInput` has the failed task
`fail` in its upstream set (as the input `x`), yet with `skip=True`
`DagRun.run` stores SKIPPED for it — the static-skip check at the top of
`run` fires before the upstream sets are even considered — not
UPSTREAM_FAILED as the claim requires for *every* task with a failed
upstream. -/
theorem C1_static_skip_beats_upstream_failure :
    DagRun.run 1 [] exFail = Option.some [("fail", exFailResult)] ∧
    "fail" ∈ exSkipWithFailedInput.upstream_tasks.map TaskArg.id ∧
    (resD [("fail", exFailResult)] "fail").state = State.FAILED ∧
    DagRun.runGet 1 [("fail", exFailResult)] exSkipWithFailedInput "gated" =
      Option.some { state := State.SKIPPED } ∧
    ¬ State.SKIPPED = State.UPSTREAM_FAILED := by
  refine ⟨rfl, by decide, rfl, rfl, by decide⟩

/-- C3 counterexample: the gate task `G` of `exGatedShared` consumes the
task `A`, which is also the gated task's own declared input `x`.
Resolving the gate therefore records `A` in the result store even though
the gated task is SKIPPED by the gate-first check, contradicting the
claim that no other member of the upstream set is ever started or
recorded. -/
theorem C3_shared_upstream_recorded :
    DagRun.runGet 3 [] exGatedShared "gated" = Option.some { state := State.SKIPPED } ∧
    DagRun.runGet 3 [] exGatedShared "A" =
      Option.some { state := State.SUCCEEDED, value := Val.int 1 } ∧
    "A" ∈ exGatedShared.upstream_tasks.map TaskArg.id ∧
    ¬ "A" = exGatedShared.skip_taskD.id := by
  refine ⟨rfl, rfl, by decide, by decide⟩

/-- C8 counterexample: a task naming `one` both in `wait_on` and as the
input `x` lists it twice in `upstream_tasks` (the source builds a plain
list concatenation with no deduplication); task equality in the source
is id equality, so the repeated id is a repeated task. -/
theorem C8_duplicate_upstream :
    exDup.upstream_tasks.map TaskArg.id = ["one", "one"] ∧
    ¬ (exDup.upstream_tasks.map TaskArg.id).Nodup := by
  refine ⟨rfl, by decide⟩

theorem finishWith_upstream_failed (store1 : Store) (g : Except Err (List (String × Val)))
    (task : TaskArg)
    (h : task.upstream_tasks.any
        (fun u => failedStates.contains (resD store1 u.id).state) = true) :
    DagRun.finishWith store1 g task =
      Store.insert store1 task.id { state := State.UPSTREAM_FAILED } := by
  unfold DagRun.finishWith
  rw [if_pos h]

theorem any_failed_after_gather (store2 : Store) (task : TaskArg)
    (h : task.upstream_tasks.any
        (fun u => failedStates.contains (resD store2 u.id).state) = true) :
    task.upstream_tasks.any
        (fun u => failedStates.contains
          (resD (DagRun.storeAfterGather store2 task) u.id).state) = true := by
  unfold DagRun.storeAfterGather
  cases hg : DagRun.gatherKwargs store2 task with
  | ok kw => exact h
  | error e =>
    rcases List.any_eq_true.mp h with ⟨u, hu, hfail⟩
    apply List.any_eq_true.mpr
    refine ⟨u, hu, ?_⟩
    by_cases hid : task.id = u.id
    · rw [← hid, resD_insert_self]
      rfl
    · rw [resD_insert_ne _ _ _ _ hid]
      exact hfail

/-- C1 amended: for a task that is not already resolved, whose static
skip check does not fire, and whose gate-first skip check does not fire,
if after the upstream fan-out some member of the upstream set has stored
state FAILED or UPSTREAM_FAILED, then `DagRun.run` stores a Result with
state UPSTREAM_FAILED (value and error both absent) for the task —
without invoking its work function, and regardless of any SKIPPED or
UPSTREAM_SKIPPED upstream members or of a truthy late skip gate, since
the failure check precedes both the upstream-skip check and the late
gate check.  (The original claim is unconditional over all tasks with a
failed upstream; `C1_static_skip_beats_upstream_failure` shows the
static-skip short-circuit refutes that.) -/
theorem C1_upstream_failure_propagation
    (fuel : Nat) (store store1 store2 : Store) (task : TaskArg)
    (hNew : Store.get store task.id = Option.none)
    (hStatic : (!task.has_skip_task && task.should_be_skippedD) = false)
    (hGateRun : (if task.needs_to_run_skip_task_first then DagRun.run fuel store task.skip_taskD
                 else Option.some store) = Option.some store1)
    (hGateVal : (task.needs_to_run_skip_task_first
                 && (resD store1 task.skip_taskD.id).value.truthy) = false)
    (hFan : DagRun.runList (DagRun.run fuel) store1 task.upstream_tasks = Option.some store2)
    (hFail : task.upstream_tasks.any
        (fun u => failedStates.contains (resD store2 u.id).state) = true) :
    DagRun.runGet (fuel + 1) store task task.id =
      Option.some { state := State.UPSTREAM_FAILED } := by
  have hRun : DagRun.run (fuel + 1) store task = Option.some (DagRun.finish store2 task) := by
    show DagRun.runStep (DagRun.run fuel) store task = _
    unfold DagRun.runStep
    rw [hNew, hStatic, hGateRun]
    simp only [Option.isSome_none, Bool.false_eq_true, if_false]
    rw [hGateVal, hFan]
    rfl
  unfold DagRun.runGet
  rw [hRun]
  show Store.get (DagRun.finish store2 task) task.id = _
  unfold DagRun.finish
  rw [finishWith_upstream_failed _ _ _ (any_failed_after_gather store2 task hFail)]
  exact Store.get_insert_self _ _ _

/-- C1 witness: a consumer whose upstream set holds one FAILED and one
SKIPPED task resolves to UPSTREAM_FAILED (the failure check wins over
the skip check). -/
theorem C1_upstream_failure_propagation_witness :
    Store.get [] exMixedConsumer.id = Option.none ∧
    (!exMixedConsumer.has_skip_task && exMixedConsumer.should_be_skippedD) = false ∧
    (if exMixedConsumer.needs_to_run_skip_task_first then
        DagRun.run 1 [] exMixedConsumer.skip_taskD
      else Option.some []) = Option.some [] ∧
    (exMixedConsumer.needs_to_run_skip_task_first
      && (resD [] exMixedConsumer.skip_taskD.id).value.truthy) = false ∧
    DagRun.runList (DagRun.run 1) [] exMixedConsumer.upstream_tasks =
      Option.some [("s", { state := State.SKIPPED }), ("fail", exFailResult)] ∧
    exMixedConsumer.upstream_tasks.any
        (fun u => failedStates.contains
          (resD [("s", { state := State.SKIPPED }), ("fail", exFailResult)] u.id).state) =
      true ∧
    DagRun.runGet 2 [] exMixedConsumer exMixedConsumer.id =
      Option.some { state := State.UPSTREAM_FAILED } :=
  ⟨rfl, rfl, rfl, rfl, rfl, rfl,
   C1_upstream_failure_propagation 1 [] []
     [("s", { state := State.SKIPPED }), ("fail", exFailResult)]
     exMixedConsumer rfl rfl rfl rfl rfl rfl⟩

/-- C3 amended: for a task with a task-valued gate and
`check_skip_first=true` that is not already resolved, when the gate
task's resolved value is truthy, `DagRun.run` stores SKIPPED for the
gated task and returns with the store extended only by that one entry
beyond whatever resolving the gate recorded; any task id not recorded by
the gate's resolution (in particular any other upstream member not
needed by the gate) is never started, and `get_result` on it fails with
a not-found condition.  (The original claim said *no* other member of
the upstream set is ever recorded; `C3_shared_upstream_recorded` shows a
member shared with the gate's own upstream is recorded.) -/
theorem C3_gate_first_skip
    (fuel : Nat) (store store1 : Store) (task : TaskArg) (uid : String)
    (hNew : Store.get store task.id = Option.none)
    (hFirst : task.needs_to_run_skip_task_first = true)
    (hGateRun : DagRun.run fuel store task.skip_taskD = Option.some store1)
    (hGateVal : (resD store1 task.skip_taskD.id).value.truthy = true)
    (hUid : ¬ uid = task.id)
    (hUnstarted : Store.get store1 uid = Option.none) :
    DagRun.run (fuel + 1) store task =
      Option.some (Store.insert store1 task.id { state := State.SKIPPED }) ∧
    DagRun.get_result (Store.insert store1 task.id { state := State.SKIPPED }) uid =
      Option.none := by
  have hHasSkip : task.has_skip_task = true := by
    by_contra hc
    have hf : task.has_skip_task = false := Bool.eq_false_iff.mpr hc
    unfold TaskArg.needs_to_run_skip_task_first at hFirst
    rw [hf] at hFirst
    simp at hFirst
  have hStatic : (!task.has_skip_task && task.should_be_skippedD) = false := by
    rw [hHasSkip]
    rfl
  constructor
  · show DagRun.runStep (DagRun.run fuel) store task = _
    unfold DagRun.runStep
    rw [hNew, hStatic, hFirst]
    simp only [Option.isSome_none, Bool.false_eq_true, if_false, if_true]
    rw [hGateRun]
    simp only []
    rw [hGateVal]
    rfl
  · unfold DagRun.get_result
    rw [Store.get_insert_ne _ _ _ _ (fun hh => hUid hh.symm)]
    exact hUnstarted

/-- C3 witness: the `test_skip_first` scenario — gate `true` is truthy,
the gated task `two` is SKIPPED, and its other upstream `one` is never
recorded, so `get_result` on it is a not-found. -/
theorem C3_gate_first_skip_witness :
    Store.get [] exGatedFresh.id = Option.none ∧
    exGatedFresh.needs_to_run_skip_task_first = true ∧
    DagRun.run 1 [] exGatedFresh.skip_taskD =
      Option.some [("true", { state := State.SUCCEEDED, value := Val.bool true })] ∧
    (resD [("true", { state := State.SUCCEEDED, value := Val.bool true })]
        exGatedFresh.skip_taskD.id).value.truthy = true ∧
    ¬ "one" = exGatedFresh.id ∧
    Store.get [("true", { state := State.SUCCEEDED, value := Val.bool true })] "one" =
      Option.none ∧
    (DagRun.run 2 [] exGatedFresh =
      Option.some (Store.insert
        [("true", { state := State.SUCCEEDED, value := Val.bool true })]
        exGatedFresh.id { state := State.SKIPPED }) ∧
     DagRun.get_result (Store.insert
        [("true", { state := State.SUCCEEDED, value := Val.bool true })]
        exGatedFresh.id { state := State.SKIPPED }) "one" = Option.none) :=
  ⟨rfl, rfl, rfl, rfl, by decide, rfl,
   C3_gate_first_skip 1 []
     [("true", { state := State.SUCCEEDED, value := Val.bool true })]
     exGatedFresh "one" rfl rfl rfl rfl (by decide) rfl⟩

theorem upstream_task_of_isTask (t : TaskArg) (h : t.isTask = true) :
    t.upstream_task = t := by
  cases t <;> first | rfl | (unfold TaskArg.isTask at h; cases h)

theorem isTaskTransform_eq_false_of_isTask (t : TaskArg) (h : t.isTask = true) :
    t.isTaskTransform = false := by
  cases t <;> first | rfl | (unfold TaskArg.isTask at h; cases h)

theorem apply_transform_ok (a : TaskArg) (fn : Val → Except Err Val) (r res : TaskResult)
    (hInner : (if a.isTaskTransform then a.apply r else Except.ok r) = Except.ok res)
    (val : Val) (hfn : fn res.value = Except.ok val) :
    (a.transform fn).apply r = Except.ok { value := val } := by
  unfold TaskArg.transform
  unfold TaskArg.apply
  rw [hInner]
  simp [hfn]

theorem gather_value_transform (store : Store) (inner : TaskArg)
    (tf : Option (Val → Except Err Val)) (alt : Val) (r r2 : TaskResult)
    (hGet : Store.get store (TaskArg.taskTransform inner tf alt).upstream_task.id =
      Option.some r)
    (hApp : (TaskArg.taskTransform inner tf alt).apply r = Except.ok r2) :
    DagRun.gather_value store (TaskArg.taskTransform inner tf alt) = Except.ok r2.value := by
  unfold DagRun.gather_value
  simp only [hGet, hApp]

theorem gatherKwargs_single (store : Store) (cid : String) (wl : List TaskArg)
    (sk : Sum Bool TaskArg) (csf : Bool) (a : TaskArg)
    (wk : List (String × Val) → Except Err Val) (val : Val)
    (h : DagRun.gather_value store a = Except.ok val) :
    DagRun.gatherKwargs store (TaskArg.task cid wl sk csf [("x", a)] wk) =
      Except.ok [("x", val)] := by
  unfold DagRun.gatherKwargs DagRun.gatherValues
  simp only [TaskArg.inputsD, h]
  rfl

/-- C5: for a task that succeeded with value `v` and pure maps `f`, `g`
(given by `f v = ok w` and `g w = ok u`), a downstream task whose
declared input `x` is bound to `t.transform(f).transform(g)` has its
work function invoked with `x = g (f v)`: the composed transform wraps
the same root task and applies the wrapped transform first, then the new
function.  The conclusion exhibits the work function applied to exactly
`[("x", u)]`. -/
theorem C5_transform_composition
    (fuel : Nat) (store : Store) (rt : TaskArg) (cid : String)
    (f g : Val → Except Err Val) (v w u : Val)
    (work : List (String × Val) → Except Err Val)
    (hRoot : rt.isTask = true)
    (hStored : Store.get store rt.id = Option.some { state := State.SUCCEEDED, value := v })
    (hNew : Store.get store cid = Option.none)
    (hf : f v = Except.ok w)
    (hg : g w = Except.ok u) :
    DagRun.run (fuel + 2) store
      (TaskArg.task cid [] (Sum.inl false) false [("x", (rt.transform f).transform g)] work) =
    Option.some (Store.insert store cid
      (match work [("x", u)] with
       | Except.ok r => { state := State.SUCCEEDED, value := r }
       | Except.error e => { state := State.FAILED, error := Option.some e })) := by
  have hNotTf : rt.isTaskTransform = false := isTaskTransform_eq_false_of_isTask rt hRoot
  have hUpTask : ((rt.transform f).transform g).upstream_task = rt := by
    show rt.upstream_task = rt
    exact upstream_task_of_isTask rt hRoot
  have hUp : (TaskArg.task cid [] (Sum.inl false) false
      [("x", (rt.transform f).transform g)] work).upstream_tasks = [rt] := by
    unfold TaskArg.upstream_tasks
    simp only [TaskArg.skipD, TaskArg.wait_onD, TaskArg.inputsD]
    rw [show ([("x", (rt.transform f).transform g)].map Prod.snd) =
      [(rt.transform f).transform g] from rfl]
    rw [show ([(rt.transform f).transform g].filter fun a => a.isTask) = [] from rfl]
    rw [show ([(rt.transform f).transform g].filter fun a => a.isTaskTransform) =
      [(rt.transform f).transform g] from rfl]
    rw [show ([(rt.transform f).transform g].map TaskArg.upstream_task) =
      [((rt.transform f).transform g).upstream_task] from rfl]
    rw [hUpTask]
    rfl
  have hInner1 : (if rt.isTaskTransform then
        rt.apply { state := State.SUCCEEDED, value := v }
      else Except.ok { state := State.SUCCEEDED, value := v }) =
      Except.ok { state := State.SUCCEEDED, value := v } := by
    rw [hNotTf]
    rfl
  have hApply1 : (rt.transform f).apply { state := State.SUCCEEDED, value := v } =
      Except.ok { value := w } :=
    apply_transform_ok rt f _ _ hInner1 w hf
  have hInner2 : (if (rt.transform f).isTaskTransform then
        (rt.transform f).apply { state := State.SUCCEEDED, value := v }
      else Except.ok { state := State.SUCCEEDED, value := v }) =
      Except.ok { value := w } := by
    rw [if_pos]
    · exact hApply1
    · rfl
  have hApply : ((rt.transform f).transform g).apply { state := State.SUCCEEDED, value := v } =
      Except.ok { value := u } :=
    apply_transform_ok (rt.transform f) g _ _ hInner2 u hg
  have hGetRoot : Store.get store
      (TaskArg.taskTransform (rt.transform f) (Option.some g) Val.none).upstream_task.id =
      Option.some { state := State.SUCCEEDED, value := v } := by
    rw [show (TaskArg.taskTransform (rt.transform f) (Option.some g) Val.none).upstream_task =
      ((rt.transform f).transform g).upstream_task from rfl]
    rw [hUpTask]
    exact hStored
  have hGatherV : DagRun.gather_value store ((rt.transform f).transform g) =
      Except.ok u :=
    gather_value_transform store (rt.transform f) (Option.some g) Val.none _ _ hGetRoot hApply
  have hGather : DagRun.gatherKwargs store
      (TaskArg.task cid [] (Sum.inl false) false
        [("x", (rt.transform f).transform g)] work) = Except.ok [("x", u)] :=
    gatherKwargs_single store cid [] (Sum.inl false) false _ work u hGatherV
  have hResRt : resD store rt.id = { state := State.SUCCEEDED, value := v } := by
    unfold resD
    rw [hStored]
    rfl
  have hRunRt : DagRun.run (fuel + 1) store rt = Option.some store := by
    show DagRun.runStep (DagRun.run fuel) store rt = _
    unfold DagRun.runStep
    rw [hStored]
    rfl
  have hFan : DagRun.runList (DagRun.run (fuel + 1)) store
      (TaskArg.task cid [] (Sum.inl false) false
        [("x", (rt.transform f).transform g)] work).upstream_tasks = Option.some store := by
    rw [hUp]
    unfold DagRun.runList
    rw [hRunRt]
    rfl
  have hAnyF : ([rt].any fun x => failedStates.contains (resD store x.id).state) = false := by
    simp only [List.any_cons, List.any_nil, hResRt, Bool.or_false]
    rfl
  have hAnyS : ([rt].any fun x => skippedStates.contains (resD store x.id).state) = false := by
    simp only [List.any_cons, List.any_nil, hResRt, Bool.or_false]
    rfl
  have hFinish : DagRun.finish store
      (TaskArg.task cid [] (Sum.inl false) false
        [("x", (rt.transform f).transform g)] work) =
      Store.insert store cid
        (match work [("x", u)] with
         | Except.ok r => { state := State.SUCCEEDED, value := r }
         | Except.error e => { state := State.FAILED, error := Option.some e }) := by
    unfold DagRun.finish
    rw [show DagRun.storeAfterGather store
        (TaskArg.task cid [] (Sum.inl false) false
          [("x", (rt.transform f).transform g)] work) = store from by
      unfold DagRun.storeAfterGather
      rw [hGather]]
    rw [hGather]
    unfold DagRun.finishWith
    rw [hUp, hAnyF, hAnyS]
    simp only [Bool.false_eq_true, if_false]
    show (match work [("x", u)] with
      | Except.ok r => Store.insert store cid { state := State.SUCCEEDED, value := r }
      | Except.error e =>
        Store.insert store cid { state := State.FAILED, error := Option.some e }) = _
    cases work [("x", u)] <;> rfl
  show DagRun.runStep (DagRun.run (fuel + 1)) store _ = _
  unfold DagRun.runStep
  rw [show (TaskArg.task cid [] (Sum.inl false) false
      [("x", (rt.transform f).transform g)] work).id = cid from rfl, hNew]
  simp only [Option.isSome_none, Bool.false_eq_true, if_false]
  show (match DagRun.runList (DagRun.run (fuel + 1)) store
      (TaskArg.task cid [] (Sum.inl false) false
        [("x", (rt.transform f).transform g)] work).upstream_tasks with
    | Option.none => Option.none
    | Option.some store2 => Option.some (DagRun.finish store2
        (TaskArg.task cid [] (Sum.inl false) false
          [("x", (rt.transform f).transform g)] work))) = _
  rw [hFan]
  show Option.some (DagRun.finish store _) = _
  rw [hFinish]

/-- C5 witness: `one.transform(+1).transform(+1)` consumed by an echoing
task observes `3 = (+1) ((+1) 1)`. -/
theorem C5_transform_composition_witness :
    exOne.isTask = true ∧
    Store.get [("one", { state := State.SUCCEEDED, value := Val.int 1 })] exOne.id =
      Option.some { state := State.SUCCEEDED, value := Val.int 1 } ∧
    Store.get [("one", { state := State.SUCCEEDED, value := Val.int 1 })] "c" =
      Option.none ∧
    intSucc (Val.int 1) = Except.ok (Val.int 2) ∧
    intSucc (Val.int 2) = Except.ok (Val.int 3) ∧
    DagRun.run 2 [("one", { state := State.SUCCEEDED, value := Val.int 1 })]
      (TaskArg.task "c" [] (Sum.inl false) false
        [("x", (exOne.transform intSucc).transform intSucc)] echoWork) =
    Option.some (Store.insert [("one", { state := State.SUCCEEDED, value := Val.int 1 })] "c"
      (match echoWork [("x", Val.int 3)] with
       | Except.ok r => { state := State.SUCCEEDED, value := r }
       | Except.error e => { state := State.FAILED, error := Option.some e })) :=
  ⟨rfl, rfl, rfl, rfl, rfl,
   C5_transform_composition 0 [("one", { state := State.SUCCEEDED, value := Val.int 1 })]
     exOne "c" intSucc intSucc (Val.int 1) (Val.int 2) (Val.int 3) echoWork
     rfl rfl rfl rfl rfl⟩


/-- C8 amended: membership in `upstream_tasks` is exactly membership in
the union described by the spec — (a) task-valued declared inputs,
(b) wait-on tasks, (c) the task-valued skip gate, (d) root tasks of
transform-valued declared inputs — but `upstream_tasks` is a plain list
concatenation that is *not* deduplicated (`C8_duplicate_upstream`), so
"no task appears in it more than once" does not hold. -/
theorem C8_upstream_membership (t u : TaskArg) :
    u ∈ t.upstream_tasks ↔ specUpstreamMember t u := by
  unfold TaskArg.upstream_tasks specUpstreamMember
  constructor
  · intro h
    rcases List.mem_append.mp h with h1 | h4
    · rcases List.mem_append.mp h1 with h2 | h3
      · rcases List.mem_append.mp h2 with hsk | hw
        · cases hskD : t.skipD with
          | inl b => rw [hskD] at hsk; cases hsk
          | inr g =>
            rw [hskD] at hsk
            have hgu : u = g := List.mem_singleton.mp hsk
            exact Or.inr (Or.inr (Or.inl (by rw [hgu])))
        · exact Or.inr (Or.inl hw)
      · rcases List.mem_filter.mp h3 with ⟨hmem, hTask⟩
        rcases List.mem_map.mp hmem with ⟨p, hp, hsnd⟩
        exact Or.inl ⟨p, hp, hsnd, hTask⟩
    · rcases List.mem_map.mp h4 with ⟨a, ha, hau⟩
      rcases List.mem_filter.mp ha with ⟨hmem, hTf⟩
      rcases List.mem_map.mp hmem with ⟨p, hp, hpa⟩
      refine Or.inr (Or.inr (Or.inr ⟨p, hp, ?_, ?_⟩))
      · rw [hpa]; exact hTf
      · rw [hpa]; exact hau
  · intro h
    rcases h with ⟨p, hp, hpu, hTask⟩ | hw | hsk | ⟨p, hp, hTf, hpu⟩
    · apply List.mem_append.mpr; left
      apply List.mem_append.mpr; right
      apply List.mem_filter.mpr
      exact ⟨List.mem_map.mpr ⟨p, hp, hpu⟩, hTask⟩
    · apply List.mem_append.mpr; left
      apply List.mem_append.mpr; left
      apply List.mem_append.mpr; right
      exact hw
    · apply List.mem_append.mpr; left
      apply List.mem_append.mpr; left
      apply List.mem_append.mpr; left
      rw [hsk]
      exact List.mem_singleton.mpr rfl
    · apply List.mem_append.mpr; right
      apply List.mem_map.mpr
      refine ⟨p.2, ?_, hpu⟩
      apply List.mem_filter.mpr
      exact ⟨List.mem_map.mpr ⟨p, hp, rfl⟩, hTf⟩

/-- C9 amended: every entry that `DagRun.run` adds to the result store
satisfies the per-state field discipline: the state is terminal; a
FAILED entry has its error present and its value absent; a SUCCEEDED
entry has its error absent (its value is whatever the work function
returned, possibly `None`); SKIPPED, UPSTREAM_FAILED and
UPSTREAM_SKIPPED entries have both absent.  ("Exactly one of
value/error populated for terminal states" is refuted by
`C9_skipped_result_both_absent`.) -/
theorem C9_result_field_shape
    (fuel : Nat) (store s : Store) (t : TaskArg) (k : String) (r : TaskResult)
    (hrun : DagRun.run fuel store t = Option.some s)
    (hmem : (k, r) ∈ s) :
    (k, r) ∈ store ∨
      (r.state.isTerminal = true ∧
       (r.state = State.FAILED → r.error.isSome = true ∧ r.value = Val.none) ∧
       (r.state = State.SUCCEEDED → r.error = Option.none) ∧
       ((r.state = State.SKIPPED ∨ r.state = State.UPSTREAM_FAILED ∨
           r.state = State.UPSTREAM_SKIPPED) →
         r.value = Val.none ∧ r.error = Option.none)) :=
  run_writes fuel store t s hrun (k, r) hmem

/-- C9 witness: the SKIPPED entry written for a statically skipped task
satisfies the field discipline. -/
theorem C9_result_field_shape_witness :
    DagRun.run 1 [] exSkipStatic = Option.some [("s", { state := State.SKIPPED })] ∧
    ("s", ({ state := State.SKIPPED } : TaskResult)) ∈
      [("s", ({ state := State.SKIPPED } : TaskResult))] ∧
    (("s", ({ state := State.SKIPPED } : TaskResult)) ∈ ([] : Store) ∨
      (State.isTerminal State.SKIPPED = true ∧
       (State.SKIPPED = State.FAILED →
         (Option.none : Option Err).isSome = true ∧ Val.none = Val.none) ∧
       (State.SKIPPED = State.SUCCEEDED → (Option.none : Option Err) = Option.none) ∧
       ((State.SKIPPED = State.SKIPPED ∨ State.SKIPPED = State.UPSTREAM_FAILED ∨
           State.SKIPPED = State.UPSTREAM_SKIPPED) →
         Val.none = Val.none ∧ (Option.none : Option Err) = Option.none))) :=
  ⟨rfl, by decide,
   C9_result_field_shape 1 [] [("s", { state := State.SKIPPED })] exSkipStatic "s"
     { state := State.SKIPPED } rfl (by decide)⟩

/-- C10: starting from a store whose entries are all terminal (in
particular the empty store of a fresh run), every entry of the store
`DagRun.run` returns is terminal — the store never holds a CREATED,
WAITING or RUNNING result, so a successful `get_result` returns a
terminal Result — the task itself has a stored result, and running the
same task again (with any positive fuel) returns the store unchanged. -/
theorem C10_store_terminal_and_idempotent
    (fuel : Nat) (store s : Store) (t : TaskArg) (k : String) (r : TaskResult) (n : Nat)
    (hInit : ∀ e ∈ store, (e : String × TaskResult).2.state.isTerminal = true)
    (hrun : DagRun.run fuel store t = Option.some s)
    (hmem : (k, r) ∈ s) :
    r.state.isTerminal = true ∧
    ¬ DagRun.get_result s t.id = Option.none ∧
    DagRun.run (n + 1) s t = Option.some s := by
  refine ⟨?_, ?_, ?_⟩
  · rcases run_writes fuel store t s hrun (k, r) hmem with h | h
    · exact hInit (k, r) h
    · exact h.1
  · have hs := run_get_self fuel store t s hrun
    intro hcon
    unfold DagRun.get_result at hcon
    rw [hcon] at hs
    cases hs
  · show DagRun.runStep (DagRun.run n) s t = _
    unfold DagRun.runStep
    rw [if_pos (run_get_self fuel store t s hrun)]

/-- C10 witness: a fresh run of the `one` task. -/
theorem C10_store_terminal_and_idempotent_witness :
    (∀ e ∈ ([] : Store), (e : String × TaskResult).2.state.isTerminal = true) ∧
    DagRun.run 1 [] exOne =
      Option.some [("one", { state := State.SUCCEEDED, value := Val.int 1 })] ∧
    ("one", ({ state := State.SUCCEEDED, value := Val.int 1 } : TaskResult)) ∈
      [("one", ({ state := State.SUCCEEDED, value := Val.int 1 } : TaskResult))] ∧
    ((State.SUCCEEDED).isTerminal = true ∧
     ¬ DagRun.get_result [("one", { state := State.SUCCEEDED, value := Val.int 1 })]
         exOne.id = Option.none ∧
     DagRun.run 1 [("one", { state := State.SUCCEEDED, value := Val.int 1 })] exOne =
       Option.some [("one", { state := State.SUCCEEDED, value := Val.int 1 })]) :=
  ⟨by decide, rfl, by decide,
   C10_store_terminal_and_idempotent 1 []
     [("one", { state := State.SUCCEEDED, value := Val.int 1 })] exOne "one"
     { state := State.SUCCEEDED, value := Val.int 1 } 0 (by decide) rfl (by decide)⟩

/-- C9 counterexample: a statically skipped task is stored with terminal
state SKIPPED and with *neither* value nor error populated, so "exactly
one of value/error is populated for terminal states" fails. -/
theorem C9_skipped_result_both_absent :
    DagRun.runGet 1 [] exSkipStatic "s" = Option.some { state := State.SKIPPED } ∧
    State.isTerminal State.SKIPPED = true ∧
    ¬ exactlyOnePopulated { state := State.SKIPPED } := by
  refine ⟨rfl, rfl, ?_⟩
  intro h
  rcases h with ⟨h1, _⟩ | ⟨_, h2⟩
  · exact h1 rfl
  · cases h2

end Ydag
